import Mathlib

/-!
# Verification of the safe-actions-state core

A shallow embedding of the repository's three components:

* `withRetry` (src/unnamed/part_001, lines 102-118): the Retry Executor.
* `createSafeAction` (src/unnamed/part_001, lines 31-93): the Action Guard.
* `useSafeAction` (src/unnamed/part_002): the client-side Action Runner
  (its `execute`/`cancel` pair and state bundle).

Modelling conventions:

* Promise-valued operations that may throw are modelled as `Except`-valued
  functions.  An operation whose behaviour differs from attempt to attempt
  (a stateful business handler) is modelled as a function of the attempt
  index `Nat → Except E A`: `fn k` is the outcome of the (k+1)-th
  invocation of `fn`.
* The `AbortSignal` is modelled as `signal : Nat → Bool`: `signal k` is
  the value of `signal.aborted` observed by the check at the top of loop
  iteration `k`.  An absent signal is `fun _ => false`.
* Each run produces a list of events (`Ev`) recording, in order, the
  observable effects: aborted-signal checks, invocations of the operation,
  timer promises that are created but not awaited, and awaited delays.
  The source of `withRetry` creates its backoff promise with
  `new Promise((resolve) => setTimeout(resolve, 1000))` and does NOT
  `await` it, so the translation emits `Ev.scheduleTimer 1000` there;
  an `await`ed delay would emit `Ev.wait`, which this code never does.
* Optional TS values (`data?: TInput`, `schema?`, `role?: string`) are
  modelled with `Option`.  JS truthiness tests are modelled exactly: for
  `role?: string` and the runner's `result?.error`, falsiness is absence
  or the empty string; for values of the generic types `TInput`/`TOutput`
  (the guard's `!!data`/`!data`, the runner's `result?.data`), truthiness
  of a present value depends on the concrete type, so the model takes a
  truthiness predicate as a parameter (`truthy`, `truthyOut`) and an
  absent value is falsy (`jsTruthy`).  A Zod schema object is always
  truthy, so `!schema` is plain absence.
-/

/-- Observable events of one run of the retry loop / guarded invocable. -/
inductive Ev where
  /-- the `signal?.aborted` check at the top of a loop iteration, with the
  value it observed -/
  | checkSignal (aborted : Bool)
  /-- invocation of the retried operation (the business handler), attempt
  index attached -/
  | invoke (attempt : Nat)
  /-- a timer promise created with `setTimeout` but not awaited
  (with-retry line 14: the promise is built and dropped) -/
  | scheduleTimer (ms : Nat)
  /-- an awaited delay of `ms` milliseconds; the shipped code never awaits
  its backoff promise, so no run ever contains this event -/
  | wait (ms : Nat)
  /-- a `schema.safeParse` call (create-safe-action line 72) -/
  | validate
  deriving Repr, DecidableEq

/-- Ways a `withRetry` call can reject, separating the two `Error`s the
function constructs itself from a rethrown error of the operation. -/
inductive RetryError (E : Type) where
  /-- `throw new Error("Request aborted")` (with-retry line 8) -/
  | requestAborted
  /-- `throw new Error("Max retries reached")` (with-retry line 17) -/
  | maxRetriesReached
  /-- the last attempt's own error, rethrown as-is (with-retry line 12) -/
  | userError (e : E)
  deriving Repr, DecidableEq

/-- Body of the `for (let attempt = 0; attempt < retries; attempt++)` loop
of `withRetry`.  `fuel` bounds the number of remaining iterations and is
`retries - attempt` at every call, so the `fuel = 0` exit coincides with
the loop-condition exit `attempt ≥ retries`; both return the trailing
`Error("Max retries reached")`. -/
def withRetryGo (fn : Nat → Except E A) (retries : Nat) (signal : Nat → Bool)
    (attempt : Nat) (fuel : Nat) : List Ev × Except (RetryError E) A :=
  match fuel with
  | 0 => ([], .error .maxRetriesReached)
  | fuel + 1 =>
    if attempt < retries then
      if signal attempt then
        ([Ev.checkSignal true], .error .requestAborted)
      else
        match fn attempt with
        | .ok a => ([Ev.checkSignal false, Ev.invoke attempt], .ok a)
        | .error e =>
          if attempt = retries - 1 then
            ([Ev.checkSignal false, Ev.invoke attempt], .error (.userError e))
          else
            let r := withRetryGo fn retries signal (attempt + 1) fuel
            (Ev.checkSignal false :: Ev.invoke attempt ::
              Ev.scheduleTimer 1000 :: r.1, r.2)
    else ([], .error .maxRetriesReached)

/-- The Retry Executor (src/unnamed/part_001, lines 102-118): attempts
`fn` up to `retries` times, checking `signal` before each attempt; returns
the run's event trace together with its outcome. -/
def withRetry (fn : Nat → Except E A) (retries : Nat) (signal : Nat → Bool) :
    List Ev × Except (RetryError E) A :=
  withRetryGo fn retries signal 0 retries

/-- Number of invocations of the retried operation recorded in a trace. -/
def invCount (evs : List Ev) : Nat :=
  evs.countP fun e => match e with | .invoke _ => true | _ => false

/-- Number of awaited delays recorded in a trace. -/
def waitCount (evs : List Ev) : Nat :=
  evs.countP fun e => match e with | .wait _ => true | _ => false

/-- Number of `schema.safeParse` calls recorded in a trace. -/
def validateCount (evs : List Ev) : Nat :=
  evs.countP fun e => match e with | .validate => true | _ => false

/-- The absent cancellation signal: `signal?.aborted` is never true. -/
def noSignal : Nat → Bool := fun _ => false

/-- `export type SessionObject = { authenticated: boolean; role?: string }`
(src/unnamed/part_001, line 23). -/
structure SessionObject where
  authenticated : Bool
  role : Option String
  deriving Repr, DecidableEq

/-- `export type FieldErrors<T> = { [K in keyof T]?: string[] }` (the
`src/types` module, found at the tail of
src/src/hooks/use-safe-action.ts): a partial map from the fields of `T`
to lists of error strings, modelled as an association list keyed by field
name. -/
abbrev FieldErrors : Type := List (String × List String)

/-- The object alternative of `export type ActionState<TInput, TOutput>`
(the `src/types` module, found at the tail of
src/src/hooks/use-safe-action.ts): `fieldErrors?: FieldErrors<TInput>`,
`error?: string`, `data?: TOutput`.  The type's `| void` alternative is
modelled as an `Option` around this record (`none` standing for void)
wherever an `ActionState` flows; the `TInput` parameter enters only as
the key set of `fieldErrors`, whose keys the model carries as strings. -/
structure ActionState (TOutput : Type) where
  fieldErrors : Option FieldErrors
  error : Option String
  data : Option TOutput
  deriving Repr, DecidableEq

/-- A single validation issue as produced by the schema validator: a path
into the input (list of field segments), a human message, and an error
code. -/
structure ZodIssue where
  path : List String
  message : String
  code : String
  deriving Repr, DecidableEq

/-- Outcome of `schema.safeParse(data)`: success carries the validated
(possibly coerced) value, failure carries the list of issues. -/
inductive ParseResult (TInput : Type) where
  | success (data : TInput)
  | failure (issues : List ZodIssue)
  deriving Repr, DecidableEq

/-- A schema is its `safeParse` function. -/
def Schema (TInput : Type) : Type := TInput → ParseResult TInput

/-- Field-path rendering used by the summary message: segments joined by
`"."`. -/
def renderPath : List String → String
  | [] => ""
  | [f] => f
  | f :: rest => f ++ "." ++ renderPath rest

/-- Modelled from the spec: `generateErrorMessage` comes from the external
`zod-error` package, which is not part of this repository's sources.  The
guard calls it with `maxErrors: 1`, component delimiter `": "`, message
label `""` and `code` disabled (part_001, lines 75-81), and per §4.2 step 6
the summary "takes at most the first validation issue, renders it as
`\x22<field path>: <message>\x22`, and omits error codes". -/
def generateErrorMessage (issues : List ZodIssue) : String :=
  match issues with
  | [] => ""
  | i :: _ => renderPath i.path ++ ": " ++ i.message

/-- Append a message to the entry of `key` in an association list of field
errors, creating the entry at the end if absent. -/
def insertFieldError (acc : List (String × List String)) (key : String)
    (msg : String) : List (String × List String) :=
  match acc with
  | [] => [(key, [msg])]
  | (k, ms) :: rest =>
    if k = key then (k, ms ++ [msg]) :: rest
    else (k, ms) :: insertFieldError rest key msg

/-- One step of the flattening fold: place the issue's message under the
first segment of its path; an issue with an empty path contributes no
field error. -/
def flattenStep (acc : List (String × List String)) (i : ZodIssue) :
    List (String × List String) :=
  match i.path with
  | [] => acc
  | f :: _ => insertFieldError acc f i.message

/-- Modelled from the spec: `validationResult.error.flatten().fieldErrors`
is zod library behaviour (zod is not part of this repository's sources) —
issue messages grouped under the first segment of each issue's path;
issues with an empty path belong to `formErrors` and do not appear among
the field errors. -/
def flattenFieldErrors (issues : List ZodIssue) : List (String × List String) :=
  issues.foldl flattenStep []

/-- The JS falsiness test `!session.role` (part_001, line 51): true when
the role is absent or the empty string. -/
def roleFalsy : Option String → Bool
  | none => true
  | some s => s == ""

/-- JS truthiness of an optional value: an absent value is falsy; a
present one is as truthy as its type's truthiness predicate says. -/
def jsTruthy (truthy : α → Bool) : Option α → Bool
  | none => false
  | some x => truthy x

/-- The RBAC rejection condition of create-safe-action lines 52-57:
`allowedRoles && allowedRoles.length > 0 && !allowedRoles.includes(session.role)`. -/
def rbacRejects (allowedRoles : Option (List String)) (role : String) : Bool :=
  match allowedRoles with
  | some roles => decide (0 < roles.length) && !roles.contains role
  | none => false

/-- The Action Guard (src/unnamed/part_001, lines 31-93): `createSafeAction`
applied to its configuration, then the returned invocable applied to one
call's data and signal.  The per-invocation session lookup (lines 44-49)
is modelled by passing the fetched `session` as an argument.  The handler
is modelled attempt-indexed (see the module docstring); it returns
`Option (ActionState TOutput)` for the `| void` alternative of its return
type.  JS truthiness of a `TInput` value depends on the concrete type, so
the model takes the predicate `truthy` as a parameter; the four-way match
below is the case split of the source's if-chain (lines 60-64) with
`!!data` as `jsTruthy truthy data`: `!schema && !!data` returns "Schema is
required when data is provided"; `!!schema && !data` (input absent or
present-but-falsy) returns "Data is required when schema is provided";
`!schema && !data` invokes `handler(undefined)` through the Retry Executor
(a present but falsy input is dropped — the handler still receives
`undefined`); otherwise (`!!schema && !!data`) the input is validated. -/
def createSafeAction
    (handler : Option TInput → Nat → Except E (Option (ActionState TOutput)))
    (truthy : TInput → Bool)
    (schema : Option (Schema TInput)) (allowedRoles : Option (List String))
    (retries : Nat) (session : SessionObject) (data : Option TInput)
    (signal : Nat → Bool) :
    List Ev × Except (RetryError E) (Option (ActionState TOutput)) :=
  if !session.authenticated then
    ([], .ok (some ⟨none, some "Un-authenticated", none⟩))
  else if roleFalsy session.role then
    ([], .ok (some ⟨none, some "No role found in session", none⟩))
  else if rbacRejects allowedRoles (session.role.getD "") then
    ([], .ok (some ⟨none, some "Un-authorized", none⟩))
  else
    match schema, data with
    | none, none => withRetry (fun k => handler none k) retries signal
    | none, some d =>
      if truthy d then
        ([], .ok (some ⟨none,
          some "Schema is required when data is provided", none⟩))
      else withRetry (fun k => handler none k) retries signal
    | some _, none =>
      ([], .ok (some ⟨none,
        some "Data is required when schema is provided", none⟩))
    | some sch, some d =>
      if truthy d then
        match sch d with
        | .failure issues =>
          ([Ev.validate],
           .ok (some ⟨some (flattenFieldErrors issues),
                      some (generateErrorMessage issues), none⟩))
        | .success validated =>
          let r := withRetry (fun k => handler (some validated) k) retries
            signal
          (Ev.validate :: r.1, r.2)
      else
        ([], .ok (some ⟨none,
          some "Data is required when schema is provided", none⟩))

/-- The message the Action Runner's catch derives from a thrown value
(part_002, lines 95-96: `error instanceof Error ? error.message : ...`).
`userMsg` extracts the message of a thrown handler error (or the
`"An unknown error occurred"` fallback for a non-`Error` value); the two
errors `withRetry` constructs itself carry the messages it gives them. -/
def retryErrorMessage (userMsg : E → String) : RetryError E → String
  | .requestAborted => "Request aborted"
  | .maxRetriesReached => "Max retries reached"
  | .userError e => userMsg e

/-- The Action Runner's per-instance mutable bundle (src/unnamed/part_002):
the four `useState` cells and the single `AbortController` created at
construction, reduced to its `signal.aborted` flag. -/
structure RunnerState (TOutput : Type) where
  fieldErrors : Option FieldErrors
  error : Option String
  data : Option TOutput
  isPending : Bool
  aborted : Bool
  deriving Repr, DecidableEq

/-- Initial runner state: all cells `undefined`, not pending, controller
fresh. -/
def RunnerState.init : RunnerState TOutput :=
  ⟨none, none, none, false, false⟩

/-- `const cancel = () => abortController.current.abort()` (part_002,
line 108): sets the shared controller's aborted flag; no new controller is
constructed, no other cell changes. -/
def cancel (s : RunnerState TOutput) : RunnerState TOutput :=
  { s with aborted := true }

/-- The JS truthiness test `result?.error` (part_002, line 76) on an
optional string: false when absent or empty. -/
def truthyStr : Option String → Bool
  | none => false
  | some s => s != ""

/-- One run of the Action Runner's `execute` (src/unnamed/part_002, lines
61-104) against an `action` — the guarded invocable, already applied to
its configuration, taking the call's input and the cancellation signal.
The signal passed is the instance's single controller's signal
(`abortController.current.signal`), modelled as the constant value of its
`aborted` flag at call time.  `result?.data` (part_002, line 80) is a JS
truthiness test on a `TOutput` value, taken as the parameter `truthyOut`:
a falsy data payload takes the no-payload success branch (no `setData`),
exactly as an absent one does.  Returns the final state and the action's
event trace. -/
def execute
    (action : Option TInput → (Nat → Bool) →
      List Ev × Except (RetryError E) (Option (ActionState TOutput)))
    (truthyOut : TOutput → Bool) (userMsg : E → String)
    (s : RunnerState TOutput) (input : Option TInput) :
    RunnerState TOutput × List Ev :=
  let sp := { s with isPending := true }
  let r := action input (fun _ => sp.aborted)
  let sEnd :=
    match r.2 with
    | .ok result =>
      let s1 := { sp with fieldErrors := result.bind (fun a => a.fieldErrors) }
      if truthyStr (result.bind (fun a => a.error)) then
        { s1 with error := result.bind (fun a => a.error) }
      else if jsTruthy truthyOut (result.bind (fun a => a.data)) then
        { s1 with data := result.bind (fun a => a.data) }
      else s1
    | .error e => { sp with error := some (retryErrorMessage userMsg e) }
  ({ sEnd with isPending := false }, r.1)

/-- A handler that throws on attempts 1 and 2 (1-indexed) and succeeds on
attempt 3, used by the retry scenarios. -/
def flaky : Nat → Except String Nat :=
  fun k => if k < 2 then .error ("fail" ++ toString (k + 1)) else .ok 7

/-- A handler that throws on every attempt, with a distinct message per
attempt. -/
def alwaysFail : Nat → Except String Nat :=
  fun k => .error ("boom" ++ toString (k + 1))

/-- A concrete handler fixture for witnesses: returns a data envelope on
every attempt. -/
def handlerOk : Option Nat → Nat → Except String (Option (ActionState Nat)) :=
  fun v _ => .ok (some ⟨none, none, some (v.getD 0 + 1)⟩)

/-- A concrete schema fixture for witnesses: accepts positive numbers,
rejects non-positive ones with one issue on field "n". -/
def posSchema : Schema Nat :=
  fun n => if 0 < n then .success n
    else .failure [⟨["n"], "Must be positive", "too_small"⟩]

/-- JS truthiness for numbers, at `Nat`: 0 is falsy, everything else
truthy. -/
def natTruthy : Nat → Bool := fun n => n != 0

/-- A second schema fixture: accepts even numbers, rejects odd ones with
one issue on field "n". -/
def evenSchema : Schema Nat :=
  fun n => if n % 2 = 0 then .success n
    else .failure [⟨["n"], "Must be even", "custom"⟩]

/-- A string is single-line when it contains no newline character. -/
def singleLine (s : String) : Prop := '\n' ∉ s.data

/-- An initial runner-state fixture for witnesses. -/
def initRunner : RunnerState Nat := RunnerState.init

/-! ## Lemmas about the retry loop -/

theorem invCount_cons_check (b : Bool) (l : List Ev) :
    invCount (Ev.checkSignal b :: l) = invCount l := by
  simp [invCount, List.countP_cons]

theorem invCount_cons_invoke (k : Nat) (l : List Ev) :
    invCount (Ev.invoke k :: l) = invCount l + 1 := by
  simp [invCount, List.countP_cons]

theorem invCount_cons_timer (ms : Nat) (l : List Ev) :
    invCount (Ev.scheduleTimer ms :: l) = invCount l := by
  simp [invCount, List.countP_cons]

/-- The loop performs at most `fuel` invocations of the operation. -/
theorem invCount_withRetryGo_le (fn : Nat → Except E A) (retries : Nat)
    (signal : Nat → Bool) :
    ∀ fuel attempt, invCount (withRetryGo fn retries signal attempt fuel).1 ≤ fuel := by
  intro fuel
  induction fuel with
  | zero => intro attempt; simp [withRetryGo, invCount]
  | succ f ih =>
    intro attempt
    by_cases hlt : attempt < retries
    · by_cases hsig : signal attempt = true
      · simp [withRetryGo, hlt, hsig, invCount]
      · replace hsig : signal attempt = false := by simpa using hsig
        cases hfn : fn attempt with
        | ok a => simp [withRetryGo, hlt, hsig, hfn, invCount, List.countP_cons]
        | error e =>
          by_cases hlast : attempt = retries - 1
          · subst hlast
            have h0 : 0 < retries := by omega
            simp only [withRetryGo]
            simp [h0, hsig, hfn, invCount, List.countP_cons]
          · have hrec := ih (attempt + 1)
            simp only [withRetryGo]
            simp [hlt, hsig, hfn, hlast, invCount_cons_check,
              invCount_cons_invoke, invCount_cons_timer]
            omega
    · simp [withRetryGo, hlt, invCount]

/-- If the signal stays clear and the operation fails on the first `k`
attempts and succeeds on attempt `k` (which the budget permits), the loop
returns that success after exactly `k + 1` invocations. -/
theorem withRetryGo_success (fn : Nat → Except E A) (retries : Nat)
    (signal : Nat → Bool) (a : A) :
    ∀ k attempt fuel, attempt + fuel = retries → k < fuel →
      (∀ j, j < k → signal (attempt + j) = false ∧ ∃ e, fn (attempt + j) = .error e) →
      signal (attempt + k) = false → fn (attempt + k) = .ok a →
      (withRetryGo fn retries signal attempt fuel).2 = .ok a ∧
        invCount (withRetryGo fn retries signal attempt fuel).1 = k + 1 := by
  intro k
  induction k with
  | zero =>
    intro attempt fuel hinv hk _ hsig hfn
    have hlt : attempt < retries := by omega
    obtain ⟨f, rfl⟩ : ∃ f, fuel = f + 1 := ⟨fuel - 1, by omega⟩
    simp only [Nat.add_zero] at hsig hfn
    simp only [withRetryGo]
    simp [hlt, hsig, hfn, invCount, List.countP_cons]
  | succ k ih =>
    intro attempt fuel hinv hk hj hsig hfn
    have hlt : attempt < retries := by omega
    obtain ⟨f, rfl⟩ : ∃ f, fuel = f + 1 := ⟨fuel - 1, by omega⟩
    obtain ⟨hs0, e0, hf0⟩ := hj 0 (Nat.succ_pos k)
    simp only [Nat.add_zero] at hs0 hf0
    have hlast : attempt ≠ retries - 1 := by omega
    have hshift : attempt + (k + 1) = attempt + 1 + k := by omega
    rw [hshift] at hsig hfn
    have hih := ih (attempt + 1) f (by omega) (by omega)
      (fun j hjk => by
        have h2 := hj (j + 1) (by omega)
        have h1 : attempt + (j + 1) = attempt + 1 + j := by omega
        rw [h1] at h2
        exact h2)
      hsig hfn
    simp only [withRetryGo]
    simp [hlt, hs0, hf0, hlast, invCount_cons_check, invCount_cons_invoke,
      invCount_cons_timer, hih.1, hih.2]

/-- If the signal stays clear and every permitted attempt fails, the loop
rethrows the error of the final attempt (index `retries - 1`) after
exactly `fuel` invocations. -/
theorem withRetryGo_allFail (fn : Nat → Except E A) (retries : Nat)
    (signal : Nat → Bool) :
    ∀ fuel attempt, attempt + fuel = retries → 1 ≤ fuel →
      (∀ j, j < fuel → signal (attempt + j) = false ∧ ∃ e, fn (attempt + j) = .error e) →
      ∀ e, fn (retries - 1) = .error e →
        (withRetryGo fn retries signal attempt fuel).2 = .error (.userError e) ∧
          invCount (withRetryGo fn retries signal attempt fuel).1 = fuel := by
  intro fuel
  induction fuel with
  | zero => intro attempt _ h1; omega
  | succ f ih =>
    intro attempt hinv _ hj e hlaste
    have hlt : attempt < retries := by omega
    obtain ⟨hs0, e0, hf0⟩ := hj 0 (Nat.succ_pos f)
    simp only [Nat.add_zero] at hs0 hf0
    by_cases hlast : attempt = retries - 1
    · subst hlast
      obtain rfl : f = 0 := by omega
      have he : e0 = e := by
        have h2 := hlaste
        rw [hf0] at h2
        exact Except.error.inj h2
      subst he
      simp only [withRetryGo]
      simp [hlt, hs0, hf0, invCount, List.countP_cons]
    · have hf1 : 1 ≤ f := by omega
      have hih := ih (attempt + 1) (by omega) hf1
        (fun j hjf => by
          have h2 := hj (j + 1) (by omega)
          have h1 : attempt + (j + 1) = attempt + 1 + j := by omega
          rw [h1] at h2
          exact h2)
        e hlaste
      simp only [withRetryGo]
      simp [hlt, hs0, hf0, hlast, invCount_cons_check, invCount_cons_invoke,
        invCount_cons_timer, hih.1, hih.2]

/-- If the signal is clear through the first `k` attempts, which all fail,
and is set when attempt `k` would start (within the budget), the loop
rejects with the Aborted error after exactly `k` invocations, and no
attempt with index `≥ k` is ever invoked. -/
theorem withRetryGo_abort (fn : Nat → Except E A) (retries : Nat)
    (signal : Nat → Bool) :
    ∀ k attempt fuel, attempt + fuel = retries → k < fuel →
      (∀ j, j < k → signal (attempt + j) = false ∧ ∃ e, fn (attempt + j) = .error e) →
      signal (attempt + k) = true →
      (withRetryGo fn retries signal attempt fuel).2 = .error .requestAborted ∧
        invCount (withRetryGo fn retries signal attempt fuel).1 = k ∧
        ∀ m, Ev.invoke m ∈ (withRetryGo fn retries signal attempt fuel).1 →
          m < attempt + k := by
  intro k
  induction k with
  | zero =>
    intro attempt fuel hinv hk _ hsig
    have hlt : attempt < retries := by omega
    obtain ⟨f, rfl⟩ : ∃ f, fuel = f + 1 := ⟨fuel - 1, by omega⟩
    simp only [Nat.add_zero] at hsig
    simp only [withRetryGo]
    simp [hlt, hsig, invCount]
  | succ k ih =>
    intro attempt fuel hinv hk hj hsig
    have hlt : attempt < retries := by omega
    obtain ⟨f, rfl⟩ : ∃ f, fuel = f + 1 := ⟨fuel - 1, by omega⟩
    obtain ⟨hs0, e0, hf0⟩ := hj 0 (Nat.succ_pos k)
    simp only [Nat.add_zero] at hs0 hf0
    have hlast : attempt ≠ retries - 1 := by omega
    have hshift : attempt + (k + 1) = attempt + 1 + k := by omega
    rw [hshift] at hsig
    have hih := ih (attempt + 1) f (by omega) (by omega)
      (fun j hjk => by
        have h2 := hj (j + 1) (by omega)
        have h1 : attempt + (j + 1) = attempt + 1 + j := by omega
        rw [h1] at h2
        exact h2)
      hsig
    refine ⟨?_, ?_, ?_⟩
    · simp only [withRetryGo]
      simp [hlt, hs0, hf0, hlast, hih.1]
    · simp only [withRetryGo]
      simp [hlt, hs0, hf0, hlast, invCount_cons_check, invCount_cons_invoke,
        invCount_cons_timer, hih.2.1]
    · intro m hm
      simp only [withRetryGo] at hm
      simp [hlt, hs0, hf0, hlast, List.mem_cons] at hm
      rcases hm with hm | hm
      · omega
      · have := hih.2.2 m (by simpa using hm)
        omega

/-- With a positive budget, the loop's outcome is a success, the Aborted
rejection, or a rethrown operation error: the trailing
`Error("Max retries reached")` is unreachable. -/
theorem withRetryGo_shape (fn : Nat → Except E A) (retries : Nat)
    (signal : Nat → Bool) :
    ∀ fuel attempt, attempt + fuel = retries → 1 ≤ fuel →
      (∃ a, (withRetryGo fn retries signal attempt fuel).2 = .ok a) ∨
      (withRetryGo fn retries signal attempt fuel).2 = .error .requestAborted ∨
      (∃ e, (withRetryGo fn retries signal attempt fuel).2 = .error (.userError e)) := by
  intro fuel
  induction fuel with
  | zero => intro attempt _ h; omega
  | succ f ih =>
    intro attempt hinv _
    have hlt : attempt < retries := by omega
    by_cases hsig : signal attempt = true
    · right; left
      simp only [withRetryGo]
      simp [hlt, hsig]
    · replace hsig : signal attempt = false := by simpa using hsig
      cases hfn : fn attempt with
      | ok a =>
        left
        refine ⟨a, ?_⟩
        simp only [withRetryGo]
        simp [hlt, hsig, hfn]
      | error e =>
        by_cases hlast : attempt = retries - 1
        · subst hlast
          right; right
          refine ⟨e, ?_⟩
          simp only [withRetryGo]
          simp [hlt, hsig, hfn]
        · have hf1 : 1 ≤ f := by omega
          have hih := ih (attempt + 1) (by omega) hf1
          simp only [withRetryGo]
          simpa [hlt, hsig, hfn, hlast] using hih

/-- No run of the retry loop ever awaits a delay: the backoff promise is
created and dropped. -/
theorem waitCount_withRetryGo (fn : Nat → Except E A) (retries : Nat)
    (signal : Nat → Bool) :
    ∀ fuel attempt, waitCount (withRetryGo fn retries signal attempt fuel).1 = 0 := by
  intro fuel
  induction fuel with
  | zero => intro attempt; simp [withRetryGo, waitCount]
  | succ f ih =>
    intro attempt
    by_cases hlt : attempt < retries
    · by_cases hsig : signal attempt = true
      · simp only [withRetryGo]
        simp [hlt, hsig, waitCount]
      · replace hsig : signal attempt = false := by simpa using hsig
        cases hfn : fn attempt with
        | ok a =>
          simp only [withRetryGo]
          simp [hlt, hsig, hfn, waitCount, List.countP_cons]
        | error e =>
          by_cases hlast : attempt = retries - 1
          · subst hlast
            simp only [withRetryGo]
            simp [hlt, hsig, hfn, waitCount, List.countP_cons]
          · have hrec := ih (attempt + 1)
            simp only [withRetryGo]
            simpa [hlt, hsig, hfn, hlast, waitCount, List.countP_cons] using hrec
    · simp [withRetryGo, hlt, waitCount]

/-- First iteration of the loop always invokes the operation when the
budget permits it and the signal is clear. -/
theorem invCount_withRetryGo_pos (fn : Nat → Except E A) (retries : Nat)
    (signal : Nat → Bool) (attempt fuel : Nat) (hfuel : 1 ≤ fuel)
    (hlt : attempt < retries) (hsig : signal attempt = false) :
    1 ≤ invCount (withRetryGo fn retries signal attempt fuel).1 := by
  obtain ⟨f, rfl⟩ : ∃ f, fuel = f + 1 := ⟨fuel - 1, by omega⟩
  cases hfn : fn attempt with
  | ok a =>
    simp only [withRetryGo]
    simp [hlt, hsig, hfn, invCount, List.countP_cons]
  | error e =>
    by_cases hlast : attempt = retries - 1
    · subst hlast
      simp only [withRetryGo]
      simp [hlt, hsig, hfn, invCount, List.countP_cons]
    · simp only [withRetryGo]
      simp [hlt, hsig, hfn, hlast, invCount_cons_check, invCount_cons_invoke,
        invCount_cons_timer]

/-! ## Claim theorems about the Retry Executor -/

/-- C1: with a positive budget (and no cancellation signal passed),
`withRetry` invokes the operation at most `retries` times and at least
once; if the operation fails on the first `k` attempts and succeeds on
attempt `k`, the call returns that attempt's value after exactly `k + 1`
invocations (no invocation after a success); if every permitted attempt
fails, the call rethrows the last attempt's own error after exactly
`retries` invocations.  In particular the handler that throws on attempts
1 and 2 and succeeds on attempt 3 yields success after exactly 3
invocations when `retries = 3`, and its failure `"fail2"` propagates
after exactly 2 invocations when `retries = 2`. -/
theorem withRetry_attempt_bounds (fn : Nat → Except E A) (retries : Nat)
    (hretries : 1 ≤ retries) :
    invCount (withRetry fn retries noSignal).1 ≤ retries ∧
    1 ≤ invCount (withRetry fn retries noSignal).1 ∧
    (∀ k a, k < retries → (∀ j, j < k → ∃ e, fn j = .error e) → fn k = .ok a →
      (withRetry fn retries noSignal).2 = .ok a ∧
        invCount (withRetry fn retries noSignal).1 = k + 1) ∧
    ((∀ j, j < retries → ∃ e, fn j = .error e) →
      ∀ e, fn (retries - 1) = .error e →
        (withRetry fn retries noSignal).2 = .error (.userError e) ∧
          invCount (withRetry fn retries noSignal).1 = retries) ∧
    (withRetry flaky 3 noSignal).2 = .ok 7 ∧
    invCount (withRetry flaky 3 noSignal).1 = 3 ∧
    (withRetry flaky 2 noSignal).2 = .error (.userError "fail2") ∧
    invCount (withRetry flaky 2 noSignal).1 = 2 := by
  refine ⟨invCount_withRetryGo_le fn retries noSignal retries 0,
    invCount_withRetryGo_pos fn retries noSignal 0 retries hretries (by omega) rfl,
    ?_, ?_, rfl, rfl, rfl, rfl⟩
  · intro k a hk hj hfn
    exact withRetryGo_success fn retries noSignal a k 0 retries (by omega) hk
      (fun j hjk => ⟨rfl, by simpa using hj j hjk⟩) rfl (by simpa using hfn)
  · intro hall e hlast
    exact withRetryGo_allFail fn retries noSignal retries 0 (by omega) hretries
      (fun j hjf => ⟨rfl, by simpa using hall j (by omega)⟩) e hlast

theorem withRetry_attempt_bounds_witness :
    (withRetry flaky 3 noSignal).2 = .ok 7 ∧
    invCount (withRetry flaky 3 noSignal).1 = 3 ∧
    (withRetry flaky 2 noSignal).2 = .error (.userError "fail2") ∧
    invCount (withRetry flaky 2 noSignal).1 = 2 :=
  ⟨(withRetry_attempt_bounds flaky 3 (by decide)).2.2.2.2.1,
   (withRetry_attempt_bounds flaky 3 (by decide)).2.2.2.2.2.1,
   (withRetry_attempt_bounds flaky 2 (by decide)).2.2.2.2.2.2.1,
   (withRetry_attempt_bounds flaky 2 (by decide)).2.2.2.2.2.2.2⟩

/-- C2: contrary to the claim, no backoff wait ever elapses between
failed attempts: every run of `withRetry` contains zero awaited delays
(`Ev.wait`) because with-retry line 14 constructs the 1-second timer
promise without awaiting it; the concrete two-attempt all-failing run
shows the next invocation following the failed one with only the dropped
`scheduleTimer 1000` in between. -/
theorem withRetry_backoff_never_awaited :
    (∀ (E A : Type) (fn : Nat → Except E A) (retries : Nat) (signal : Nat → Bool),
      waitCount (withRetry fn retries signal).1 = 0) ∧
    withRetry alwaysFail 2 noSignal =
      ([Ev.checkSignal false, Ev.invoke 0, Ev.scheduleTimer 1000,
        Ev.checkSignal false, Ev.invoke 1], .error (.userError "boom2")) := by
  constructor
  · intro E A fn retries signal
    exact waitCount_withRetryGo fn retries signal retries 0
  · rfl

/-- C3: if the cancellation signal is already set when attempt `k` is
about to start (every earlier attempt having started with a clear signal
and failed), the `withRetry` call rejects with the Aborted error, the
operation has been invoked exactly `k` times, and no attempt of index `k`
or later is ever invoked.  Instantiated at `k = 0` this is: cancelling
before the first attempt yields the Aborted rejection with zero
invocations. -/
theorem withRetry_aborts_when_cancelled (fn : Nat → Except E A)
    (retries k : Nat) (signal : Nat → Bool) (hk : k < retries)
    (hbefore : ∀ j, j < k → signal j = false ∧ ∃ e, fn j = .error e)
    (hsig : signal k = true) :
    (withRetry fn retries signal).2 = .error .requestAborted ∧
      invCount (withRetry fn retries signal).1 = k ∧
      ∀ m, k ≤ m → Ev.invoke m ∉ (withRetry fn retries signal).1 := by
  have h := withRetryGo_abort fn retries signal k 0 retries (by omega) hk
    (fun j hj => by simpa using hbefore j hj) (by simpa using hsig)
  refine ⟨h.1, h.2.1, ?_⟩
  intro m hm hmem
  have := h.2.2 m hmem
  omega

theorem withRetry_aborts_when_cancelled_witness :
    (withRetry alwaysFail 3 (fun _ => true)).2 = .error .requestAborted ∧
      invCount (withRetry alwaysFail 3 (fun _ => true)).1 = 0 :=
  ⟨(withRetry_aborts_when_cancelled alwaysFail 3 0 (fun _ => true) (by decide)
      (fun j hj => absurd hj (Nat.not_lt_zero j)) rfl).1,
   (withRetry_aborts_when_cancelled alwaysFail 3 0 (fun _ => true) (by decide)
      (fun j hj => absurd hj (Nat.not_lt_zero j)) rfl).2.1⟩

/-- C10: with a positive retry budget, every `withRetry` call either
returns a value of the operation, rejects with the Request-aborted error,
or rethrows one of the operation's own errors, whatever the signal does —
the trailing `Error("Max retries reached")` is unreachable. -/
theorem withRetry_maxRetries_unreachable (fn : Nat → Except E A)
    (retries : Nat) (signal : Nat → Bool) (hretries : 1 ≤ retries) :
    ((∃ a, (withRetry fn retries signal).2 = .ok a) ∨
      (withRetry fn retries signal).2 = .error .requestAborted ∨
      (∃ e, (withRetry fn retries signal).2 = .error (.userError e))) ∧
    (withRetry fn retries signal).2 ≠ .error .maxRetriesReached := by
  have h := withRetryGo_shape fn retries signal retries 0 (by omega) hretries
  refine ⟨h, ?_⟩
  intro hcontra
  simp only [withRetry] at hcontra
  rcases h with ⟨a, ha⟩ | hab | ⟨e, he⟩
  · rw [ha] at hcontra; simp at hcontra
  · rw [hab] at hcontra; simp at hcontra
  · rw [he] at hcontra; simp at hcontra

theorem withRetry_maxRetries_unreachable_witness :
    (withRetry alwaysFail 1 noSignal).2 ≠ .error .maxRetriesReached :=
  (withRetry_maxRetries_unreachable alwaysFail 1 noSignal (by decide)).2

theorem invCount_cons_validate (l : List Ev) :
    invCount (Ev.validate :: l) = invCount l := by
  simp [invCount, List.countP_cons]

/-! ## Claim theorems about the Action Guard -/

/-- C4: with an unauthenticated session the guarded invocable resolves to
exactly the `{ error: "Un-authenticated" }` envelope (no field errors, no
data) and the handler is invoked zero times, whatever the schema, roles,
budget, input and signal are. -/
theorem createSafeAction_unauthenticated
    (handler : Option TInput → Nat → Except E (Option (ActionState TOutput)))
    (truthy : TInput → Bool)
    (schema : Option (Schema TInput)) (allowedRoles : Option (List String))
    (retries : Nat) (session : SessionObject) (data : Option TInput)
    (signal : Nat → Bool) (hauth : session.authenticated = false) :
    createSafeAction handler truthy schema allowedRoles retries session data
        signal
      = ([], .ok (some ⟨none, some "Un-authenticated", none⟩)) ∧
    invCount (createSafeAction handler truthy schema allowedRoles retries
      session data signal).1 = 0 := by
  constructor
  · simp [createSafeAction, hauth]
  · simp [createSafeAction, hauth, invCount]

theorem createSafeAction_unauthenticated_witness :
    createSafeAction handlerOk natTruthy none none 3 ⟨false, some "admin"⟩
        none noSignal
      = ([], .ok (some ⟨none, some "Un-authenticated", none⟩)) ∧
    invCount (createSafeAction handlerOk natTruthy none none 3
      ⟨false, some "admin"⟩ none noSignal).1 = 0 :=
  createSafeAction_unauthenticated handlerOk natTruthy none none 3
    ⟨false, some "admin"⟩ none noSignal rfl

/-- C5: with an authenticated session, a falsy role identifier (absent or
empty string) yields exactly the `{ error: "No role found in session" }`
envelope; a genuine role rejected by the RBAC condition (non-empty
`allowedRoles` not containing it) yields exactly
`{ error: "Un-authorized" }`; in both cases the trace is empty — the
handler is invoked zero times and no schema validation is performed. -/
theorem createSafeAction_role_guard
    (handler : Option TInput → Nat → Except E (Option (ActionState TOutput)))
    (truthy : TInput → Bool)
    (schema : Option (Schema TInput)) (allowedRoles : Option (List String))
    (retries : Nat) (session : SessionObject) (data : Option TInput)
    (signal : Nat → Bool) (hauth : session.authenticated = true) :
    (roleFalsy session.role = true →
      createSafeAction handler truthy schema allowedRoles retries session
          data signal
        = ([], .ok (some ⟨none, some "No role found in session", none⟩)) ∧
      invCount (createSafeAction handler truthy schema allowedRoles retries
        session data signal).1 = 0 ∧
      validateCount (createSafeAction handler truthy schema allowedRoles
        retries session data signal).1 = 0) ∧
    (∀ r, session.role = some r → r ≠ "" → rbacRejects allowedRoles r = true →
      createSafeAction handler truthy schema allowedRoles retries session
          data signal
        = ([], .ok (some ⟨none, some "Un-authorized", none⟩)) ∧
      invCount (createSafeAction handler truthy schema allowedRoles retries
        session data signal).1 = 0 ∧
      validateCount (createSafeAction handler truthy schema allowedRoles
        retries session data signal).1 = 0) := by
  constructor
  · intro hrole
    refine ⟨?_, ?_, ?_⟩ <;>
      simp [createSafeAction, hauth, hrole, invCount, validateCount]
  · intro r hr hne hrbac
    have hrf : roleFalsy (some r) = false := by simpa [roleFalsy] using hne
    refine ⟨?_, ?_, ?_⟩ <;>
      simp [createSafeAction, hauth, hrf, hr, hrbac, invCount, validateCount]

theorem createSafeAction_role_guard_witness :
    (createSafeAction handlerOk natTruthy none none 3 ⟨true, none⟩ none
        noSignal
      = ([], .ok (some ⟨none, some "No role found in session", none⟩))) ∧
    (createSafeAction handlerOk natTruthy none (some ["admin"]) 3
        ⟨true, some "user"⟩ none noSignal
      = ([], .ok (some ⟨none, some "Un-authorized", none⟩))) :=
  ⟨((createSafeAction_role_guard handlerOk natTruthy none none 3 ⟨true, none⟩
      none noSignal rfl).1 rfl).1,
   ((createSafeAction_role_guard handlerOk natTruthy none (some ["admin"]) 3
      ⟨true, some "user"⟩ none noSignal rfl).2 "user" rfl (by decide)
      (by decide)).1⟩

/-- C6 (amended): past the authentication and role checks, presence
mismatches are reported with the source's `!!data` truthiness reading of
"input present": schema present with no truthy input — absent or
present-but-JS-falsy — gives
`{ error: "Data is required when schema is provided" }`, and a truthy
input present with no schema gives
`{ error: "Schema is required when data is provided" }`; in these cases
the trace is empty, so the handler is never invoked.  (A present but
falsy input with no schema is instead treated as absent and leads to a
handler invocation — the counterexample refutes the original claim
there.) -/
theorem createSafeAction_presence_mismatch
    (handler : Option TInput → Nat → Except E (Option (ActionState TOutput)))
    (truthy : TInput → Bool) (sch : Schema TInput) (d : TInput)
    (allowedRoles : Option (List String))
    (retries : Nat) (session : SessionObject) (signal : Nat → Bool)
    (hauth : session.authenticated = true) (r : String)
    (hr : session.role = some r) (hne : r ≠ "")
    (hrbac : rbacRejects allowedRoles r = false)
    (htruthy : truthy d = true) :
    (createSafeAction handler truthy (some sch) allowedRoles retries session
        none signal
      = ([], .ok (some ⟨none, some "Data is required when schema is provided",
          none⟩)) ∧
     invCount (createSafeAction handler truthy (some sch) allowedRoles
        retries session none signal).1 = 0) ∧
    (∀ d0, truthy d0 = false →
      createSafeAction handler truthy (some sch) allowedRoles retries session
          (some d0) signal
        = ([], .ok (some ⟨none,
            some "Data is required when schema is provided", none⟩)) ∧
      invCount (createSafeAction handler truthy (some sch) allowedRoles
        retries session (some d0) signal).1 = 0) ∧
    (createSafeAction handler truthy none allowedRoles retries session
        (some d) signal
      = ([], .ok (some ⟨none, some "Schema is required when data is provided",
          none⟩)) ∧
     invCount (createSafeAction handler truthy none allowedRoles retries
        session (some d) signal).1 = 0) := by
  have hrf : roleFalsy (some r) = false := by simpa [roleFalsy] using hne
  refine ⟨⟨?_, ?_⟩, fun d0 hd0 => ⟨?_, ?_⟩, ⟨?_, ?_⟩⟩
  · simp [createSafeAction, hauth, hrf, hr, hrbac, invCount]
  · simp [createSafeAction, hauth, hrf, hr, hrbac, invCount]
  · simp [createSafeAction, hauth, hrf, hr, hrbac, hd0, invCount]
  · simp [createSafeAction, hauth, hrf, hr, hrbac, hd0, invCount]
  · simp [createSafeAction, hauth, hrf, hr, hrbac, htruthy, invCount]
  · simp [createSafeAction, hauth, hrf, hr, hrbac, htruthy, invCount]

/-- C6 counterexample: at the concrete input `0` — present but JS-falsy —
with no schema, the guarded invocable does not return the
"Schema is required when data is provided" envelope the claim requires:
the source's `!!data` check treats the input as absent, the handler runs
exactly once (receiving `undefined`), and its own envelope is returned. -/
theorem createSafeAction_presence_mismatch_counterexample :
    (createSafeAction handlerOk natTruthy none none 3 ⟨true, some "user"⟩
      (some 0) noSignal).2 = .ok (some ⟨none, none, some 1⟩) ∧
    (createSafeAction handlerOk natTruthy none none 3 ⟨true, some "user"⟩
      (some 0) noSignal).2
      ≠ .ok (some ⟨none, some "Schema is required when data is provided",
          none⟩) ∧
    invCount (createSafeAction handlerOk natTruthy none none 3
      ⟨true, some "user"⟩ (some 0) noSignal).1 = 1 := by
  refine ⟨rfl, ?_, rfl⟩
  intro h
  have h1 : (createSafeAction handlerOk natTruthy none none 3
      ⟨true, some "user"⟩ (some 0) noSignal).2
      = .ok (some ⟨none, none, some 1⟩) := rfl
  rw [h1] at h
  simp at h

theorem createSafeAction_presence_mismatch_witness :
    (createSafeAction handlerOk natTruthy (some posSchema) none 3
        ⟨true, some "user"⟩ none noSignal
      = ([], .ok (some ⟨none, some "Data is required when schema is provided",
          none⟩))) ∧
    (createSafeAction handlerOk natTruthy (some posSchema) none 3
        ⟨true, some "user"⟩ (some 0) noSignal
      = ([], .ok (some ⟨none, some "Data is required when schema is provided",
          none⟩))) ∧
    (createSafeAction handlerOk natTruthy none none 3 ⟨true, some "user"⟩
        (some 5) noSignal
      = ([], .ok (some ⟨none, some "Schema is required when data is provided",
          none⟩))) :=
  ⟨(createSafeAction_presence_mismatch handlerOk natTruthy posSchema 5 none 3
      ⟨true, some "user"⟩ noSignal rfl "user" rfl (by decide) rfl rfl).1.1,
   ((createSafeAction_presence_mismatch handlerOk natTruthy posSchema 5 none 3
      ⟨true, some "user"⟩ noSignal rfl "user" rfl (by decide) rfl rfl).2.1
      0 rfl).1,
   (createSafeAction_presence_mismatch handlerOk natTruthy posSchema 5 none 3
      ⟨true, some "user"⟩ noSignal rfl "user" rfl (by decide) rfl rfl).2.2.1⟩

/-! ## Lemmas about the validation-failure envelope -/

theorem renderPath_cons₂ (f g : String) (t : List String) :
    renderPath (f :: g :: t) = f ++ "." ++ renderPath (g :: t) := rfl

theorem singleLine_append (a b : String) :
    singleLine (a ++ b) ↔ singleLine a ∧ singleLine b := by
  simp [singleLine, String.data_append, List.mem_append, not_or]

theorem singleLine_renderPath (path : List String)
    (h : ∀ s ∈ path, singleLine s) : singleLine (renderPath path) := by
  induction path with
  | nil => simp [renderPath, singleLine]
  | cons f rest ih =>
    cases rest with
    | nil => simpa [renderPath] using h f (by simp)
    | cons g t =>
      rw [renderPath_cons₂, singleLine_append, singleLine_append]
      refine ⟨⟨h f (by simp), by simp [singleLine]⟩, ?_⟩
      exact ih (fun s hs => h s (by simp [hs]))

theorem generateErrorMessage_cons (i : ZodIssue) (rest : List ZodIssue) :
    generateErrorMessage (i :: rest) = renderPath i.path ++ ": " ++ i.message :=
  rfl

theorem generateErrorMessage_ne_empty (i : ZodIssue) (rest : List ZodIssue) :
    generateErrorMessage (i :: rest) ≠ "" := by
  intro h
  have hl := congrArg String.length h
  rw [generateErrorMessage_cons, String.length_append, String.length_append] at hl
  have h2 : (": ").length = 2 := rfl
  have h0 : ("" : String).length = 0 := rfl
  omega

theorem singleLine_generateErrorMessage (i : ZodIssue) (rest : List ZodIssue)
    (hpath : ∀ s ∈ i.path, singleLine s) (hmsg : singleLine i.message) :
    singleLine (generateErrorMessage (i :: rest)) := by
  rw [generateErrorMessage_cons, singleLine_append, singleLine_append]
  exact ⟨⟨singleLine_renderPath i.path hpath, by simp [singleLine]⟩, hmsg⟩

theorem mem_keys_insertFieldError (acc : List (String × List String))
    (key msg f : String) :
    f ∈ (insertFieldError acc key msg).map Prod.fst ↔
      f ∈ acc.map Prod.fst ∨ f = key := by
  induction acc with
  | nil => simp [insertFieldError]
  | cons p rest ih =>
    obtain ⟨k, ms⟩ := p
    by_cases hk : k = key
    · subst hk
      simp [insertFieldError]
      tauto
    · simp only [insertFieldError, if_neg hk, List.map_cons, List.mem_cons, ih]
      tauto

theorem mem_keys_flattenFieldErrors_aux (issues : List ZodIssue)
    (acc : List (String × List String)) (f : String) :
    f ∈ ((issues.foldl flattenStep acc).map Prod.fst) ↔
      f ∈ acc.map Prod.fst ∨ ∃ i ∈ issues, i.path.head? = some f := by
  induction issues generalizing acc with
  | nil => simp
  | cons i rest ih =>
    rw [List.foldl_cons, ih]
    cases hp : i.path with
    | nil =>
      rw [show flattenStep acc i = acc by simp [flattenStep, hp]]
      simp [List.exists_mem_cons_iff, hp]
    | cons g t =>
      rw [show flattenStep acc i = insertFieldError acc g i.message by
        simp [flattenStep, hp]]
      rw [mem_keys_insertFieldError]
      simp only [List.exists_mem_cons_iff, hp, List.head?_cons,
        Option.some.injEq]
      constructor
      · rintro ((h | h) | h)
        · exact Or.inl h
        · exact Or.inr (Or.inl h.symm)
        · exact Or.inr (Or.inr h)
      · rintro (h | h | h)
        · exact Or.inl (Or.inl h)
        · exact Or.inl (Or.inr h.symm)
        · exact Or.inr h

/-- The keys of the flattened field errors are exactly the first path
segments of the issues. -/
theorem mem_keys_flattenFieldErrors (issues : List ZodIssue) (f : String) :
    f ∈ (flattenFieldErrors issues).map Prod.fst ↔
      ∃ i ∈ issues, i.path.head? = some f := by
  rw [flattenFieldErrors, mem_keys_flattenFieldErrors_aux]
  simp

/-- C7 (external validator and summarizer modelled from the spec): when
the guard reaches schema validation — schema present, input present and
JS-truthy — and the schema rejects the input with issues `i0 :: rest`,
the invocable resolves to the envelope carrying the flattened field
errors and the summary message and no data; the field-error keys are
exactly the first path segments of the issues (the invalid fields); the
summary renders only the first issue as `"<field path>: <message>"` with
its code omitted, is non-empty, and is single-line whenever the issue's
path segments and message are; the handler is never invoked — the run's
only event is the `safeParse` call. -/
theorem createSafeAction_validation_failure
    (handler : Option TInput → Nat → Except E (Option (ActionState TOutput)))
    (truthy : TInput → Bool)
    (sch : Schema TInput) (allowedRoles : Option (List String))
    (retries : Nat) (session : SessionObject) (d : TInput)
    (signal : Nat → Bool) (hauth : session.authenticated = true)
    (r : String) (hr : session.role = some r) (hne : r ≠ "")
    (hrbac : rbacRejects allowedRoles r = false)
    (htruthy : truthy d = true)
    (i0 : ZodIssue) (rest : List ZodIssue)
    (hparse : sch d = .failure (i0 :: rest)) :
    createSafeAction handler truthy (some sch) allowedRoles retries session
        (some d) signal
      = ([Ev.validate],
         .ok (some ⟨some (flattenFieldErrors (i0 :: rest)),
                    some (generateErrorMessage (i0 :: rest)), none⟩)) ∧
    (∀ f, f ∈ (flattenFieldErrors (i0 :: rest)).map Prod.fst ↔
      ∃ i ∈ i0 :: rest, i.path.head? = some f) ∧
    generateErrorMessage (i0 :: rest)
      = renderPath i0.path ++ ": " ++ i0.message ∧
    generateErrorMessage (i0 :: rest) ≠ "" ∧
    ((∀ p ∈ i0.path, singleLine p) → singleLine i0.message →
      singleLine (generateErrorMessage (i0 :: rest))) ∧
    invCount (createSafeAction handler truthy (some sch) allowedRoles retries
      session (some d) signal).1 = 0 := by
  have hrf : roleFalsy (some r) = false := by simpa [roleFalsy] using hne
  refine ⟨?_, fun f => mem_keys_flattenFieldErrors _ f,
    generateErrorMessage_cons i0 rest, generateErrorMessage_ne_empty i0 rest,
    singleLine_generateErrorMessage i0 rest, ?_⟩
  · simp [createSafeAction, hauth, hrf, hr, hrbac, htruthy, hparse]
  · simp [createSafeAction, hauth, hrf, hr, hrbac, htruthy, hparse, invCount,
      List.countP_cons]

theorem createSafeAction_validation_failure_witness :
    createSafeAction handlerOk natTruthy (some evenSchema) none 3
        ⟨true, some "user"⟩ (some 3) noSignal
      = ([Ev.validate],
         .ok (some ⟨some [("n", ["Must be even"])],
                    some "n: Must be even", none⟩)) ∧
    invCount (createSafeAction handlerOk natTruthy (some evenSchema) none 3
      ⟨true, some "user"⟩ (some 3) noSignal).1 = 0 :=
  ⟨(createSafeAction_validation_failure handlerOk natTruthy evenSchema none 3
      ⟨true, some "user"⟩ 3 noSignal rfl "user" rfl (by decide) rfl rfl
      ⟨["n"], "Must be even", "custom"⟩ [] rfl).1.trans (by rfl),
   (createSafeAction_validation_failure handlerOk natTruthy evenSchema none 3
      ⟨true, some "user"⟩ 3 noSignal rfl "user" rfl (by decide) rfl rfl
      ⟨["n"], "Must be even", "custom"⟩ [] rfl).2.2.2.2.2⟩

/-- C8: past all guard checks, with a JS-truthy input the schema validates
to `v`, a positive budget and a clear signal at the first attempt, a
handler whose first attempt returns envelope `env` makes the guarded
invocable resolve to exactly `.ok env` — the handler's envelope unchanged
— with exactly one handler invocation; by construction of the call the
handler receives only the validated value `some v`. -/
theorem createSafeAction_success_passthrough
    (handler : Option TInput → Nat → Except E (Option (ActionState TOutput)))
    (truthy : TInput → Bool)
    (sch : Schema TInput) (allowedRoles : Option (List String))
    (retries : Nat) (session : SessionObject) (d : TInput)
    (signal : Nat → Bool) (hauth : session.authenticated = true)
    (r : String) (hr : session.role = some r) (hne : r ≠ "")
    (hrbac : rbacRejects allowedRoles r = false)
    (htruthy : truthy d = true)
    (v : TInput) (hparse : sch d = .success v)
    (env : Option (ActionState TOutput))
    (hhandler : handler (some v) 0 = .ok env)
    (hretries : 1 ≤ retries) (hsig : signal 0 = false) :
    (createSafeAction handler truthy (some sch) allowedRoles retries session
      (some d) signal).2 = .ok env ∧
    invCount (createSafeAction handler truthy (some sch) allowedRoles retries
      session (some d) signal).1 = 1 := by
  have hrf : roleFalsy (some r) = false := by simpa [roleFalsy] using hne
  have hrun := withRetryGo_success (fun k => handler (some v) k) retries signal
    env 0 0 retries (by omega) (by omega)
    (fun j hj => absurd hj (Nat.not_lt_zero j)) (by simpa using hsig)
    (by simpa using hhandler)
  constructor
  · simpa [createSafeAction, hauth, hrf, hr, hrbac, htruthy, hparse,
      withRetry] using hrun.1
  · simpa [createSafeAction, hauth, hrf, hr, hrbac, htruthy, hparse,
      withRetry, invCount_cons_validate] using hrun.2

theorem createSafeAction_success_passthrough_witness :
    (createSafeAction handlerOk natTruthy (some posSchema) none 3
      ⟨true, some "user"⟩ (some 5) noSignal).2
        = .ok (some ⟨none, none, some 6⟩) ∧
    invCount (createSafeAction handlerOk natTruthy (some posSchema) none 3
      ⟨true, some "user"⟩ (some 5) noSignal).1 = 1 :=
  createSafeAction_success_passthrough handlerOk natTruthy posSchema none 3
    ⟨true, some "user"⟩ 5 noSignal rfl "user" rfl (by decide) rfl rfl 5 rfl
    (some ⟨none, none, some 6⟩) rfl (by decide) rfl

/-- A guarded invocable that passes the guard checks and is run with an
already-aborted signal rejects with the Aborted error before its first
handler invocation.  The schema/input configuration must be one that
reaches the Retry Executor: no schema with no truthy input, or schema
with a truthy input that validates. -/
theorem createSafeAction_aborted_run
    (handler : Option TInput → Nat → Except E (Option (ActionState TOutput)))
    (truthy : TInput → Bool)
    (schema : Option (Schema TInput)) (allowedRoles : Option (List String))
    (retries : Nat) (session : SessionObject) (input : Option TInput)
    (hauth : session.authenticated = true) (r : String)
    (hr : session.role = some r) (hne : r ≠ "")
    (hrbac : rbacRejects allowedRoles r = false) (hretries : 1 ≤ retries)
    (hcase : (schema = none ∧ jsTruthy truthy input = false) ∨
      (∃ sch d v, schema = some sch ∧ input = some d ∧ truthy d = true ∧
        sch d = ParseResult.success v)) :
    (createSafeAction handler truthy schema allowedRoles retries session
      input (fun _ => true)).2 = .error .requestAborted ∧
    invCount (createSafeAction handler truthy schema allowedRoles retries
      session input (fun _ => true)).1 = 0 := by
  have hrf : roleFalsy (some r) = false := by simpa [roleFalsy] using hne
  have habort := fun (fn : Nat → Except E (Option (ActionState TOutput))) =>
    withRetryGo_abort fn retries (fun _ => true) 0 0 retries (by omega)
      (by omega) (fun j hj => absurd hj (Nat.not_lt_zero j)) rfl
  rcases hcase with ⟨hs, hfal⟩ | ⟨sch, d, v, hs, hi, htr, hv⟩
  · subst hs
    cases input with
    | none =>
      constructor
      · simpa [createSafeAction, hauth, hrf, hr, hrbac, withRetry]
          using (habort (fun k => handler none k)).1
      · simpa [createSafeAction, hauth, hrf, hr, hrbac, withRetry]
          using (habort (fun k => handler none k)).2.1
    | some d =>
      have htr : truthy d = false := by simpa [jsTruthy] using hfal
      constructor
      · simpa [createSafeAction, hauth, hrf, hr, hrbac, htr, withRetry]
          using (habort (fun k => handler none k)).1
      · simpa [createSafeAction, hauth, hrf, hr, hrbac, htr, withRetry]
          using (habort (fun k => handler none k)).2.1
  · subst hs; subst hi
    constructor
    · simpa [createSafeAction, hauth, hrf, hr, hrbac, htr, hv, withRetry]
        using (habort (fun k => handler (some v) k)).1
    · simpa [createSafeAction, hauth, hrf, hr, hrbac, htr, hv, withRetry,
        invCount_cons_validate]
        using (habort (fun k => handler (some v) k)).2.1

/-- C9: `cancel` sets the runner's single controller's aborted flag, and
no operation ever replaces the controller; a subsequent `execute` of a
guarded invocable that passes the guard checks (authenticated allowed
role; a schema/input configuration that reaches the Retry Executor) hands
it the same already-aborted signal, so the retry loop rejects immediately
with the Aborted error: the runner ends with `error = "Request aborted"`,
zero handler invocations occurred, and the controller is still aborted
for any later `execute`. -/
theorem execute_after_cancel_aborts
    (handler : Option TInput → Nat → Except E (Option (ActionState TOutput)))
    (truthy : TInput → Bool) (truthyOut : TOutput → Bool)
    (schema : Option (Schema TInput)) (allowedRoles : Option (List String))
    (retries : Nat) (session : SessionObject) (input : Option TInput)
    (userMsg : E → String) (s : RunnerState TOutput)
    (hauth : session.authenticated = true) (r : String)
    (hr : session.role = some r) (hne : r ≠ "")
    (hrbac : rbacRejects allowedRoles r = false) (hretries : 1 ≤ retries)
    (hcase : (schema = none ∧ jsTruthy truthy input = false) ∨
      (∃ sch d v, schema = some sch ∧ input = some d ∧ truthy d = true ∧
        sch d = ParseResult.success v)) :
    (cancel s).aborted = true ∧
    (execute (fun inp sig => createSafeAction handler truthy schema
        allowedRoles retries session inp sig)
      truthyOut userMsg (cancel s) input).1.error = some "Request aborted" ∧
    (execute (fun inp sig => createSafeAction handler truthy schema
        allowedRoles retries session inp sig)
      truthyOut userMsg (cancel s) input).1.aborted = true ∧
    invCount ((execute (fun inp sig => createSafeAction handler truthy schema
        allowedRoles retries session inp sig)
      truthyOut userMsg (cancel s) input).2) = 0 := by
  obtain ⟨hres, hinv⟩ := createSafeAction_aborted_run handler truthy schema
    allowedRoles retries session input hauth r hr hne hrbac hretries hcase
  refine ⟨rfl, ?_, ?_, ?_⟩
  · simp [execute, cancel, hres, retryErrorMessage]
  · simp [execute, cancel, hres, retryErrorMessage]
  · simp [execute, cancel, hinv]

theorem execute_after_cancel_aborts_witness :
    (cancel initRunner).aborted = true ∧
    (execute (fun inp sig => createSafeAction handlerOk natTruthy none none 3
        ⟨true, some "user"⟩ inp sig)
      natTruthy (fun e => e) (cancel initRunner) none).1.error
        = some "Request aborted" ∧
    (execute (fun inp sig => createSafeAction handlerOk natTruthy none none 3
        ⟨true, some "user"⟩ inp sig)
      natTruthy (fun e => e) (cancel initRunner) none).1.aborted = true ∧
    invCount ((execute (fun inp sig => createSafeAction handlerOk natTruthy
        none none 3 ⟨true, some "user"⟩ inp sig)
      natTruthy (fun e => e) (cancel initRunner) none).2) = 0 :=
  execute_after_cancel_aborts handlerOk natTruthy natTruthy none none 3
    ⟨true, some "user"⟩ none (fun e => e) initRunner rfl "user" rfl
    (by decide) rfl (by decide) (Or.inl ⟨rfl, rfl⟩)
